import Mathlib

/-!
Shallow embedding of the order-intake service's core:
the relational cart store (`src/cart/store.go`), the synchronous order
submission handler and payment semaphore (`src/orders/handlers.go`),
and the SQS queue consumer (`processMessage` / `processOrder`).

Database tables are lists of rows; monetary values (SQL `DECIMAL(10,2)`,
scanned into Go `float64`) are modelled as exact rationals; Go `int`
fields are `Int`; timestamps are abstract `Nat` instants supplied by the
caller (standing for `time.Now()`).
-/

namespace CartService

/-- Errors surfaced by the cart store (`ErrCartNotFound`,
`ErrProductNotFound`, `ErrEmptyCart` in `store.go`). -/
inductive StoreErr where
  | cartNotFound
  | productNotFound
  | emptyCart
deriving Repr, DecidableEq

/-- A row of the `shopping_carts` table. -/
structure ShoppingCart where
  id : Int
  customerId : Int
  createdAt : Nat
  updatedAt : Nat
deriving Repr, DecidableEq

/-- A row of the `cart_items` table (junction keyed by
`UNIQUE(shopping_cart_id, product_id)`). -/
structure CartItem where
  shoppingCartId : Int
  productId : Int
  quantity : Int
  createdAt : Nat
  updatedAt : Nat
deriving Repr, DecidableEq

/-- A row of the `products` catalog table (only the columns the cart
store reads: id, name, price). -/
structure Product where
  id : Int
  name : String
  price : Rat
deriving Repr, DecidableEq

/-- A row of the `orders` table. -/
structure OrderRow where
  id : Int
  customerId : Int
  status : String
  totalAmount : Rat
  createdAt : Nat
deriving Repr, DecidableEq

/-- A row of the `order_items` table. -/
structure OrderItemRow where
  orderId : Int
  productId : Int
  quantity : Int
  price : Rat
deriving Repr, DecidableEq

/-- The relational database state seen by the cart store: the five
tables of `InitSchema`, plus the `orders` SERIAL sequence counter. -/
structure DBState where
  shoppingCarts : List ShoppingCart
  cartItems : List CartItem
  products : List Product
  orders : List OrderRow
  orderItems : List OrderItemRow
  nextOrderId : Int
deriving Repr, DecidableEq

/-- The `SELECT EXISTS(SELECT 1 FROM shopping_carts WHERE id = $1)`. -/
def cartExists (s : DBState) (cartId : Int) : Bool :=
  s.shoppingCarts.any (fun c => c.id == cartId)

/-- The `SELECT EXISTS(SELECT 1 FROM products WHERE id = $1)`. -/
def productExists (s : DBState) (productId : Int) : Bool :=
  s.products.any (fun p => p.id == productId)

/-- The `SELECT ... FROM shopping_carts WHERE id = $1` (primary-key lookup). -/
def findCart (s : DBState) (cartId : Int) : Option ShoppingCart :=
  s.shoppingCarts.find? (fun c => c.id == cartId)

/-- The `SELECT ... FROM products WHERE id = $1` (primary-key lookup). -/
def findProduct (s : DBState) (productId : Int) : Option Product :=
  s.products.find? (fun p => p.id == productId)

/-- The cart's rows of `cart_items` (`WHERE ci.shopping_cart_id = $1`). -/
def cartLines (s : DBState) (cartId : Int) : List CartItem :=
  s.cartItems.filter (fun ci => ci.shoppingCartId == cartId)

/-- The `INSERT ... ON CONFLICT (shopping_cart_id, product_id) DO UPDATE SET
quantity = cart_items.quantity + EXCLUDED.quantity, updated_at =
EXCLUDED.updated_at` upsert of `AddOrUpdateItem`. -/
def upsertCartItem (items : List CartItem) (cartId productId quantity : Int)
    (now : Nat) : List CartItem :=
  if items.any (fun ci => ci.shoppingCartId == cartId && ci.productId == productId) then
    items.map (fun ci =>
      if ci.shoppingCartId == cartId && ci.productId == productId then
        { ci with quantity := ci.quantity + quantity, updatedAt := now }
      else ci)
  else
    items ++ [{ shoppingCartId := cartId, productId := productId,
                quantity := quantity, createdAt := now, updatedAt := now }]

/-- The `UPDATE shopping_carts SET updated_at = $1 WHERE id = $2`. -/
def touchCart (carts : List ShoppingCart) (cartId : Int) (now : Nat) :
    List ShoppingCart :=
  carts.map (fun c => if c.id == cartId then { c with updatedAt := now } else c)

/-- The `Store.AddOrUpdateItem` (`store.go`): inside one transaction, verify the
cart exists, verify the product exists, upsert the `cart_items` row keyed by
`(shopping_cart_id, product_id)`, and touch the cart's `updated_at`.
A returned error means the transaction rolled back, so no new state. -/
def addOrUpdateItem (s : DBState) (cartId productId quantity : Int)
    (now : Nat) : Except StoreErr DBState :=
  if ¬ cartExists s cartId then .error .cartNotFound
  else if ¬ productExists s productId then .error .productNotFound
  else .ok { s with
    cartItems := upsertCartItem s.cartItems cartId productId quantity now,
    shoppingCarts := touchCart s.shoppingCarts cartId now }

/-- The `addOrUpdateItem` seen as a total state transformer: a failed call
(rolled-back transaction) leaves the database unchanged. -/
def addRun (s : DBState) (cartId productId quantity : Int) (now : Nat) : DBState :=
  match addOrUpdateItem s cartId productId quantity now with
  | .ok s2 => s2
  | .error _ => s

/-- Result rows of checkout's item query
`SELECT ci.product_id, ci.quantity, p.price FROM cart_items ci
JOIN products p ON ci.product_id = p.id WHERE ci.shopping_cart_id = $1`:
an INNER join, so a line whose product id is absent from `products`
yields no row. Each row is `(product_id, quantity, price)`. -/
def joinedLines (s : DBState) (cartId : Int) : List (Int × Int × Rat) :=
  (cartLines s cartId).filterMap (fun ci =>
    match findProduct s ci.productId with
    | some p => some (ci.productId, ci.quantity, p.price)
    | none => none)

/-- The `totalAmount += item.Price * float64(item.Quantity)` accumulated over
the joined rows, starting from zero. -/
def checkoutTotal (items : List (Int × Int × Rat)) : Rat :=
  items.foldl (fun acc it => acc + it.2.2 * (it.2.1 : Rat)) 0

/-- The `Store.CheckoutCart` (`store.go`): inside one transaction, read the
cart's `customer_id` (else `ErrCartNotFound`), read the lines joined with
current catalog prices, fail with `ErrEmptyCart` if no joined rows,
insert the `orders` row with the accumulated total and status "pending",
insert one `order_items` row per joined line, delete the cart's
`cart_items` rows, and commit. -/
def checkoutCart (s : DBState) (cartId : Int) (now : Nat) :
    Except StoreErr (Int × DBState) :=
  match findCart s cartId with
  | none => .error .cartNotFound
  | some cart =>
    let items := joinedLines s cartId
    if items.isEmpty then .error .emptyCart
    else
      let total := checkoutTotal items
      let orderId := s.nextOrderId
      let newOrder : OrderRow :=
        { id := orderId, customerId := cart.customerId, status := "pending",
          totalAmount := total, createdAt := now }
      let newItems : List OrderItemRow := items.map (fun it =>
        { orderId := orderId, productId := it.1, quantity := it.2.1, price := it.2.2 })
      .ok (orderId, { s with
        orders := s.orders ++ [newOrder],
        orderItems := s.orderItems ++ newItems,
        cartItems := s.cartItems.filter (fun ci => !(ci.shoppingCartId == cartId)),
        nextOrderId := orderId + 1 })

/-- The `checkoutCart` seen with the transaction's rollback made explicit
(`defer tx.Rollback()`): the pair is the caller-visible result and the
database afterwards; any error leaves the database exactly as before. -/
def checkoutCartRun (s : DBState) (cartId : Int) (now : Nat) :
    Except StoreErr Int × DBState :=
  match checkoutCart s cartId now with
  | .error e => (.error e, s)
  | .ok (oid, s2) => (.ok oid, s2)

/-- One row of `GetCartWithItems`' item query: the cart line LEFT-joined
with `products`, with `COALESCE(p.name, '')` and `COALESCE(p.price, 0)`. -/
structure CartItemDetail where
  shoppingCartId : Int
  productId : Int
  quantity : Int
  productName : String
  productPrice : Rat
deriving Repr, DecidableEq

/-- The `CartWithItems`: the cart row together with its detailed lines. -/
structure CartWithItems where
  cart : ShoppingCart
  items : List CartItemDetail
deriving Repr, DecidableEq

/-- The LEFT JOIN item query of `GetCartWithItems`, executed against one
database snapshot: every `cart_items` row of the cart produces exactly one
detail row; an absent product gives name `''` and price `0` via COALESCE. -/
def itemDetails (s : DBState) (cartId : Int) : List CartItemDetail :=
  (cartLines s cartId).map (fun ci =>
    match findProduct s ci.productId with
    | some p =>
      { shoppingCartId := ci.shoppingCartId, productId := ci.productId,
        quantity := ci.quantity, productName := p.name, productPrice := p.price }
    | none =>
      { shoppingCartId := ci.shoppingCartId, productId := ci.productId,
        quantity := ci.quantity, productName := "", productPrice := 0 })

/-- The `Store.GetCart`. -/
def getCart (s : DBState) (cartId : Int) : Except StoreErr ShoppingCart :=
  match findCart s cartId with
  | none => .error .cartNotFound
  | some c => .ok c

/-- The `Store.GetCartWithItems` runs two separate queries with no enclosing
transaction: the cart lookup and then the single LEFT-JOIN item query.
The two database snapshots the queries observe are therefore passed
separately (`s1` for the cart read, `s2` for the item query); a concurrent
writer may commit between them, but the item list itself comes from the
one snapshot `s2`. -/
def getCartWithItems (s1 s2 : DBState) (cartId : Int) :
    Except StoreErr CartWithItems :=
  match getCart s1 cartId with
  | .error e => .error e
  | .ok cart => .ok { cart := cart, items := itemDetails s2 cartId }

/-- An `UPDATE products SET price = $1 WHERE id = $2` by the catalog
owner: the `products` table is a live, mutable catalog (no snapshot is
taken by the cart store), so a price can change between an add and the
checkout. -/
def setProductPrice (s : DBState) (productId : Int) (newPrice : Rat) : DBState :=
  { s with products := s.products.map (fun p =>
      if p.id == productId then { p with price := newPrice } else p) }

end CartService

namespace Orders

/-- An item of an order payload (`Item` in the orders package). -/
structure Item where
  productId : String
  quantity : Int
  price : Rat
deriving Repr, DecidableEq

/-- An order payload (`Order` in the orders package). -/
structure Order where
  orderId : String
  customerId : Int
  status : String
  items : List Item
  createdAt : Nat
deriving Repr, DecidableEq

/-- The `OrderResponse`, returned by the synchronous path on success. -/
structure OrderResponse where
  orderId : String
  status : String
  message : String
deriving Repr, DecidableEq

/-- The `PaymentResult` produced by `processPaymentAsync`'s goroutine. -/
structure PaymentResult where
  success : Bool
  error : String
deriving Repr, DecidableEq

/-- The payment simulation outcome: after the gate is held and the
3-second timer fires, `processPaymentAsync` always builds
`PaymentResult{Success: true, Error: ""}`. -/
def simulatePayment (_o : Order) : PaymentResult :=
  { success := true, error := "" }

/-- Caller-visible and gate-visible events of one `CreateOrderSync` call,
in the order they happen on the handler's timeline. -/
inductive SyncEvent where
  /-- The `c.JSON(http.StatusBadRequest, ...)` on validation failure. -/
  | respondBadRequest (msg : String)
  /-- The `paymentSemaphore <- struct{}{}` succeeded inside the goroutine. -/
  | gateAcquired
  /-- the 3-second payment timer fired and the simulation finished. -/
  | paymentCompleted
  /-- The `resultChan <- result`: the goroutine handed the result over. -/
  | resultSent (success : Bool)
  /-- the deferred `<-paymentSemaphore` release ran. -/
  | gateReleased
  /-- The `c.JSON(http.StatusOK, response)`: the success response. -/
  | respondOk (r : OrderResponse)
  /-- The `c.JSON(http.StatusInternalServerError, ...)` on payment failure. -/
  | respondServerError (msg : String)
deriving Repr, DecidableEq

/-- The `Handlers.CreateOrderSync` (`handlers.go`) as its event trace: reject
an empty item list with 400 at once; otherwise run the payment simulation
through the gate, block on the result channel, and only then emit the
caller-visible response ("completed" on success, 500 otherwise). -/
def createOrderSync (o : Order) : List SyncEvent :=
  if o.items.length = 0 then
    [.respondBadRequest "order must contain at least one item"]
  else
    let result := simulatePayment o
    [.gateAcquired, .paymentCompleted, .resultSent result.success, .gateReleased] ++
      (if result.success then
        [.respondOk { orderId := o.orderId, status := "completed",
                      message := "Order processed successfully" }]
      else [.respondServerError result.error])

/-- True of the events a caller of the HTTP endpoint can observe. -/
def SyncEvent.isResponse : SyncEvent → Bool
  | .respondBadRequest _ => true
  | .respondOk _ => true
  | .respondServerError _ => true
  | _ => false

/-- Actions of `OrderProcessor.processMessage` on one SQS message. -/
inductive ConsumerAction where
  /-- The `p.processOrder(order)`: acquire the gate, simulate payment, release. -/
  | processOrder (o : Order)
  /-- The `p.deleteMessage(message)`: acknowledge (delete) the message. -/
  | deleteMessage
deriving Repr, DecidableEq

/-- The `OrderProcessor.processMessage` (queue consumer) as its action trace.
`parseEnvelope` models `json.Unmarshal` of the SNS envelope (extracting
the inner `Message` string) and `parseOrder` models `json.Unmarshal` of
that string into an `Order`; `none` is a deserialization error. A failed
parse deletes the message immediately with no processing; a successful
parse processes the order and deletes only afterwards. -/
def processMessage (parseEnvelope : String → Option String)
    (parseOrder : String → Option Order) (body : String) : List ConsumerAction :=
  match parseEnvelope body with
  | none => [.deleteMessage]
  | some inner =>
    match parseOrder inner with
    | none => [.deleteMessage]
    | some order => [.processOrder order, .deleteMessage]

/-- Go's `strconv.Atoi`: an optional leading sign followed by at least
one ASCII digit, rejected (error) when empty, malformed, or out of the
64-bit signed integer range. -/
def goAtoi (s : String) : Option Int :=
  let (sign, digits) :=
    match s.toList with
    | '+' :: rest => ((1 : Int), rest)
    | '-' :: rest => ((-1 : Int), rest)
    | rest => ((1 : Int), rest)
  if digits.isEmpty then none
  else if digits.all Char.isDigit then
    let n : Nat := digits.foldl (fun acc c => acc * 10 + (c.toNat - 48)) 0
    let v : Int := sign * (n : Int)
    if v < -(2 ^ 63) ∨ (2 : Int) ^ 63 - 1 < v then none else some v
  else none

/-- The `init` function of the orders package: `workerCount := 1`; when
`WORKER_COUNT` is set (non-empty), `strconv.Atoi` it, and adopt the value
only when parsing succeeded and it is strictly positive. The argument is
`os.Getenv("WORKER_COUNT")`, with `""` meaning unset. The result is the
capacity of the `paymentSemaphore` buffered channel. -/
def initWorkerCount (env : String) : Int :=
  let workerCount : Int := 1
  if env ≠ "" then
    match goAtoi env with
    | some count => if count > 0 then count else workerCount
    | none => workerCount
  else workerCount

/-- Which entry path a payment task came from: the synchronous handler's
`processPaymentAsync` goroutine or the queue consumer's `processOrder`. -/
inductive EntryPath where
  | sync
  | queue
deriving Repr, DecidableEq

/-- Where a payment task stands relative to the semaphore. -/
inductive TaskPhase where
  /-- blocked or about to block on `paymentSemaphore <- struct{}{}`. -/
  | awaitingCapacity
  /-- holding a semaphore slot, inside the simulated payment. -/
  | processing
  /-- released its slot (`<-paymentSemaphore`) and finished. -/
  | completed
deriving Repr, DecidableEq

/-- A payment task: its entry path and its phase. -/
structure Task where
  path : EntryPath
  phase : TaskPhase
deriving Repr, DecidableEq

/-- The process-wide payment system: the single package-level
`paymentSemaphore` channel, whose buffer capacity is fixed at `init`,
shared by every task of either path. -/
structure GateSystem where
  capacity : Nat
  tasks : List Task
deriving Repr, DecidableEq

/-- The number of semaphore slots currently held: one per task inside
the payment simulation. -/
def activeCount (sys : GateSystem) : Nat :=
  (sys.tasks.filter (fun t => t.phase == TaskPhase.processing)).length

/-- Interleaved execution of the payment system. A send on a buffered
channel with a full buffer blocks, so `acquire` carries the guard
`activeCount sys < sys.capacity`; there is no transition for a saturated
acquire — the task just stays `awaitingCapacity` (the gate never errors
or rejects). Both entry paths step through the same shared gate. -/
inductive GateStep : GateSystem → GateSystem → Prop where
  /-- a new submission arrives on either path and reaches the gate. -/
  | spawn (sys : GateSystem) (path : EntryPath) :
      GateStep sys { sys with tasks := sys.tasks ++ [⟨path, .awaitingCapacity⟩] }
  /-- The `paymentSemaphore <- struct{}{}` completes: only possible while a
  buffer slot is free. -/
  | acquire (capacity : Nat) (pre post : List Task) (path : EntryPath) :
      activeCount ⟨capacity, pre ++ ⟨path, .awaitingCapacity⟩ :: post⟩ < capacity →
      GateStep ⟨capacity, pre ++ ⟨path, .awaitingCapacity⟩ :: post⟩
               ⟨capacity, pre ++ ⟨path, .processing⟩ :: post⟩
  /-- the simulated payment finishes and the deferred release runs. -/
  | release (capacity : Nat) (pre post : List Task) (path : EntryPath) :
      GateStep ⟨capacity, pre ++ ⟨path, .processing⟩ :: post⟩
               ⟨capacity, pre ++ ⟨path, .completed⟩ :: post⟩

/-- States reachable from an idle process whose gate was initialized with
capacity `n` (no task yet holds a slot). -/
def GateReachable (n : Nat) (sys : GateSystem) : Prop :=
  Relation.ReflTransGen GateStep ⟨n, []⟩ sys

end Orders

namespace CartService

/-- The `cart_items` rows matching one `(shopping_cart_id, product_id)`
key — the key of the table's UNIQUE constraint. -/
def linesFor (items : List CartItem) (cartId productId : Int) : List CartItem :=
  items.filter (fun ci => ci.shoppingCartId == cartId && ci.productId == productId)

/-- The catalog price currently recorded for a product (0 when absent,
matching the COALESCE default; checkout never reads the default because
its INNER join drops absent products). -/
def priceOf (s : DBState) (productId : Int) : Rat :=
  match findProduct s productId with
  | some p => p.price
  | none => 0

/-- The cart lines whose product id is present in the `products` catalog
— exactly the lines checkout's INNER join keeps. -/
def presentLines (s : DBState) (cartId : Int) : List CartItem :=
  (cartLines s cartId).filter (fun ci => (findProduct s ci.productId).isSome)

theorem find?_map_of_pred_invariant {α : Type} {l : List α} {f : α → α}
    {p : α → Bool} (hf : ∀ x, p (f x) = p x) :
    (l.map f).find? p = (l.find? p).map f := by
  induction l with
  | nil => rfl
  | cons a l ih =>
    by_cases h : p a = true
    · simp [List.find?, hf a, h]
    · simp only [Bool.not_eq_true] at h
      simp [List.find?, hf a, h, ih]

theorem filter_map_of_pred_invariant {α : Type} {l : List α} {f : α → α}
    {p : α → Bool} (hf : ∀ x, p (f x) = p x) :
    (l.map f).filter p = (l.filter p).map f := by
  induction l with
  | nil => rfl
  | cons a l ih =>
    by_cases h : p a = true
    · simp [List.filter_cons, hf a, h, ih]
    · simp only [Bool.not_eq_true] at h
      simp [List.filter_cons, hf a, h, ih]

theorem any_map_of_pred_invariant {α : Type} {l : List α} {f : α → α}
    {p : α → Bool} (hf : ∀ x, p (f x) = p x) :
    (l.map f).any p = l.any p := by
  induction l with
  | nil => rfl
  | cons a l ih => simp [List.any_cons, hf a, ih]

/-- Touching a cart's timestamp changes no cart id, so existence checks
are unaffected. -/
theorem touchCart_any (carts : List ShoppingCart) (cartId cartId' : Int) (now : Nat) :
    (touchCart carts cartId now).any (fun c => c.id == cartId')
      = carts.any (fun c => c.id == cartId') := by
  unfold touchCart
  exact any_map_of_pred_invariant (fun c => by by_cases h : (c.id == cartId) = true <;> simp [h])

/-- Touching a cart's timestamp changes no cart id and no customer id,
so a primary-key lookup returns the same row up to its timestamp. -/
theorem touchCart_find? (carts : List ShoppingCart) (cartId cartId' : Int) (now : Nat) :
    (touchCart carts cartId now).find? (fun c => c.id == cartId')
      = (carts.find? (fun c => c.id == cartId')).map
          (fun c => if c.id == cartId then { c with updatedAt := now } else c) := by
  unfold touchCart
  exact find?_map_of_pred_invariant (fun c => by by_cases h : (c.id == cartId) = true <;> simp [h])

/-- With no existing row for the key, the upsert appends a fresh row. -/
theorem upsertCartItem_insert {items : List CartItem} {cartId productId quantity : Int}
    {now : Nat} (h : linesFor items cartId productId = []) :
    upsertCartItem items cartId productId quantity now =
      items ++ [{ shoppingCartId := cartId, productId := productId,
                  quantity := quantity, createdAt := now, updatedAt := now }] := by
  unfold upsertCartItem
  have hany : items.any (fun ci => ci.shoppingCartId == cartId && ci.productId == productId) = false := by
    rw [List.any_eq_false]
    exact List.filter_eq_nil_iff.mp h
  simp [hany]

/-- With an existing row for the key, the upsert increments every matching
row in place (no append). -/
theorem upsertCartItem_update {items : List CartItem} {cartId productId quantity : Int}
    {now : Nat} (h : linesFor items cartId productId ≠ []) :
    upsertCartItem items cartId productId quantity now =
      items.map (fun ci =>
        if ci.shoppingCartId == cartId && ci.productId == productId then
          { ci with quantity := ci.quantity + quantity, updatedAt := now }
        else ci) := by
  unfold upsertCartItem
  have hany : items.any (fun ci => ci.shoppingCartId == cartId && ci.productId == productId) = true := by
    rcases hcons : linesFor items cartId productId with _ | ⟨a, rest⟩
    · exact absurd hcons h
    · have ha := List.mem_filter.mp (hcons ▸ List.mem_cons_self a rest)
      exact List.any_eq_true.mpr ⟨a, ha.1, ha.2⟩
  simp [hany]

/-- The updating upsert rewrites exactly the key's rows, so the key's row
list maps through the quantity increment. -/
theorem linesFor_upsert_update {items : List CartItem} {cartId productId quantity : Int}
    {now : Nat} (h : linesFor items cartId productId ≠ []) :
    linesFor (upsertCartItem items cartId productId quantity now) cartId productId =
      (linesFor items cartId productId).map (fun ci =>
        { ci with quantity := ci.quantity + quantity, updatedAt := now }) := by
  rw [upsertCartItem_update h]
  unfold linesFor
  rw [filter_map_of_pred_invariant
    (fun ci => by by_cases hk : (ci.shoppingCartId == cartId && ci.productId == productId) = true <;> simp [hk])]
  apply List.map_congr_left
  intro a ha
  have := (List.mem_filter.mp ha).2
  simp [this]

end CartService

namespace CartService

/-- Two successful `AddOrUpdateItem` calls for the same `(cart, product)`
key, starting with no row for the key: the first appends one fresh row
and the second merges into it, leaving exactly the single row with the
summed quantity. -/
theorem addRun_eq_of_ok {s s2 : DBState} {c p q : Int} {t : Nat}
    (h : addOrUpdateItem s c p q t = .ok s2) : addRun s c p q t = s2 := by
  unfold addRun
  rw [h]

theorem addRun_two (s : DBState) (c p qa qb : Int) (t1 t2 : Nat)
    (hc : cartExists s c = true) (hp : productExists s p = true)
    (hfresh : linesFor s.cartItems c p = []) :
    (addOrUpdateItem s c p qa t1).isOk = true ∧
    (addOrUpdateItem (addRun s c p qa t1) c p qb t2).isOk = true ∧
    linesFor (addRun (addRun s c p qa t1) c p qb t2).cartItems c p =
      [{ shoppingCartId := c, productId := p, quantity := qa + qb,
         createdAt := t1, updatedAt := t2 }] := by
  have e1 : addOrUpdateItem s c p qa t1 = .ok { s with
      cartItems := s.cartItems ++ [⟨c, p, qa, t1, t1⟩],
      shoppingCarts := touchCart s.shoppingCarts c t1 } := by
    simp only [addOrUpdateItem, hc, hp, not_true, ite_false, Bool.not_eq_true]
    rw [upsertCartItem_insert hfresh]
  have eRun1 : addRun s c p qa t1 = { s with
      cartItems := s.cartItems ++ [⟨c, p, qa, t1, t1⟩],
      shoppingCarts := touchCart s.shoppingCarts c t1 } := addRun_eq_of_ok e1
  have hc1 : cartExists (addRun s c p qa t1) c = true := by
    rw [eRun1]
    show (touchCart s.shoppingCarts c t1).any (fun x => x.id == c) = true
    rw [touchCart_any]
    exact hc
  have hp1 : productExists (addRun s c p qa t1) p = true := by
    rw [eRun1]
    exact hp
  have hline1 : linesFor (addRun s c p qa t1).cartItems c p = [⟨c, p, qa, t1, t1⟩] := by
    rw [eRun1]
    show linesFor (s.cartItems ++ [⟨c, p, qa, t1, t1⟩]) c p = _
    unfold linesFor at hfresh ⊢
    rw [List.filter_append, hfresh]
    simp
  have e2 : addOrUpdateItem (addRun s c p qa t1) c p qb t2 = .ok
      { (addRun s c p qa t1) with
        cartItems := upsertCartItem (addRun s c p qa t1).cartItems c p qb t2,
        shoppingCarts := touchCart (addRun s c p qa t1).shoppingCarts c t2 } := by
    simp only [addOrUpdateItem, hc1, hp1, not_true, ite_false, Bool.not_eq_true]
  refine ⟨by rw [e1]; rfl, by rw [e2]; rfl, ?_⟩
  have eRun2 : addRun (addRun s c p qa t1) c p qb t2 =
      { (addRun s c p qa t1) with
        cartItems := upsertCartItem (addRun s c p qa t1).cartItems c p qb t2,
        shoppingCarts := touchCart (addRun s c p qa t1).shoppingCarts c t2 } :=
    addRun_eq_of_ok e2
  rw [eRun2]
  show linesFor (upsertCartItem (addRun s c p qa t1).cartItems c p qb t2) c p = _
  rw [linesFor_upsert_update (by rw [hline1]; exact List.cons_ne_nil _ _), hline1]
  rfl

/-- C1: For every cart and product, and any two positive quantities q1
and q2 passed to two AddOrUpdateItem calls for that same (cart, product)
pair in either order, the cart afterwards contains exactly one line for
that product and its quantity equals q1+q2 (quantities accumulate; no
duplicate line is ever created). The cart and product exist and the cart
initially has no line for the product (the two calls are the additions
of that product). -/
theorem addOrUpdateItem_merges_quantities (s : DBState) (c p q1 q2 : Int) (t1 t2 : Nat)
    (hc : cartExists s c = true) (hp : productExists s p = true)
    (hfresh : linesFor s.cartItems c p = [])
    (_hq1 : 0 < q1) (_hq2 : 0 < q2) :
    (addOrUpdateItem s c p q1 t1).isOk = true ∧
    (addOrUpdateItem (addRun s c p q1 t1) c p q2 t2).isOk = true ∧
    linesFor (addRun (addRun s c p q1 t1) c p q2 t2).cartItems c p =
      [{ shoppingCartId := c, productId := p, quantity := q1 + q2,
         createdAt := t1, updatedAt := t2 }] ∧
    linesFor (addRun (addRun s c p q2 t1) c p q1 t2).cartItems c p =
      [{ shoppingCartId := c, productId := p, quantity := q1 + q2,
         createdAt := t1, updatedAt := t2 }] := by
  obtain ⟨h1, h2, h3⟩ := addRun_two s c p q1 q2 t1 t2 hc hp hfresh
  obtain ⟨_, _, h3'⟩ := addRun_two s c p q2 q1 t1 t2 hc hp hfresh
  refine ⟨h1, h2, h3, ?_⟩
  rw [h3']
  rw [Int.add_comm]

/-- Witness for C1 at a concrete database: customer 42's cart 1, product
7 (price 5), quantities 2 then 3, in both orders. -/
theorem addOrUpdateItem_merges_quantities_witness :
    (addOrUpdateItem ⟨[⟨1, 42, 0, 0⟩], [], [⟨7, "P7", 5⟩], [], [], 1⟩ 1 7 2 1).isOk = true ∧
    (addOrUpdateItem (addRun ⟨[⟨1, 42, 0, 0⟩], [], [⟨7, "P7", 5⟩], [], [], 1⟩ 1 7 2 1) 1 7 3 2).isOk = true ∧
    linesFor (addRun (addRun ⟨[⟨1, 42, 0, 0⟩], [], [⟨7, "P7", 5⟩], [], [], 1⟩ 1 7 2 1) 1 7 3 2).cartItems 1 7 =
      [{ shoppingCartId := 1, productId := 7, quantity := 2 + 3,
         createdAt := 1, updatedAt := 2 }] ∧
    linesFor (addRun (addRun ⟨[⟨1, 42, 0, 0⟩], [], [⟨7, "P7", 5⟩], [], [], 1⟩ 1 7 3 1) 1 7 2 2).cartItems 1 7 =
      [{ shoppingCartId := 1, productId := 7, quantity := 2 + 3,
         createdAt := 1, updatedAt := 2 }] :=
  addOrUpdateItem_merges_quantities ⟨[⟨1, 42, 0, 0⟩], [], [⟨7, "P7", 5⟩], [], [], 1⟩
    1 7 2 3 1 2 (by decide) (by decide) (by decide) (by decide) (by decide)

end CartService

namespace CartService

/-- Checkout's INNER join keeps exactly the lines whose product id is in
the catalog, pairing each with its current catalog price. -/
theorem joinedLines_eq_presentLines (s : DBState) (c : Int) :
    joinedLines s c = (presentLines s c).map
      (fun ci => (ci.productId, ci.quantity, priceOf s ci.productId)) := by
  unfold joinedLines presentLines
  induction cartLines s c with
  | nil => rfl
  | cons a l ih =>
    rcases h : findProduct s a.productId with _ | p
    · simp [List.filterMap_cons, List.filter_cons, h, ih]
    · simp [List.filterMap_cons, List.filter_cons, h, ih, priceOf]

theorem checkoutTotal_foldl (l : List (Int × Int × Rat)) (a : Rat) :
    l.foldl (fun acc it => acc + it.2.2 * (it.2.1 : Rat)) a
      = a + (l.map (fun it => it.2.2 * (it.2.1 : Rat))).sum := by
  induction l generalizing a with
  | nil => simp
  | cons x l ih => simp [List.foldl_cons, ih, add_assoc]

/-- The accumulated `totalAmount` is the sum of price × quantity over the
joined rows. -/
theorem checkoutTotal_eq_sum (l : List (Int × Int × Rat)) :
    checkoutTotal l = (l.map (fun it => it.2.2 * (it.2.1 : Rat))).sum := by
  unfold checkoutTotal
  rw [checkoutTotal_foldl]
  simp

/-- Deleting a cart's `cart_items` rows leaves that cart with no lines. -/
theorem filter_not_filter_eq_nil {α : Type} (l : List α) (p : α → Bool) :
    (l.filter (fun x => !(p x))).filter p = [] := by
  rw [List.filter_eq_nil_iff]
  intro a ha
  have := (List.mem_filter.mp ha).2
  simp at this
  simp [this]

/-- Successful checkout, exactly as `CheckoutCart` commits it: the cart
exists and at least one line survives the INNER join; the new order row,
its item rows and its total are derived from the surviving lines at
their current catalog prices, and the cart's `cart_items` rows are
deleted. -/
theorem checkoutCart_ok (s : DBState) (c : Int) (now : Nat) (cart : ShoppingCart)
    (hcart : findCart s c = some cart)
    (hne : presentLines s c ≠ []) :
    checkoutCart s c now = .ok (s.nextOrderId, { s with
      orders := s.orders ++
        [{ id := s.nextOrderId,
           customerId := cart.customerId,
           status := "pending",
           totalAmount := ((presentLines s c).map
             (fun ci => priceOf s ci.productId * (ci.quantity : Rat))).sum,
           createdAt := now }],
      orderItems := s.orderItems ++ (presentLines s c).map (fun ci =>
        { orderId := s.nextOrderId,
          productId := ci.productId,
          quantity := ci.quantity,
          price := priceOf s ci.productId }),
      cartItems := s.cartItems.filter (fun ci => !(ci.shoppingCartId == c)),
      nextOrderId := s.nextOrderId + 1 }) := by
  unfold checkoutCart
  rw [hcart]
  have hje := joinedLines_eq_presentLines s c
  have hempty : (joinedLines s c).isEmpty = false := by
    rw [hje]
    rcases h : presentLines s c with _ | ⟨a, l⟩
    · exact absurd h hne
    · rfl
  rw [hje] at hempty
  simp only [hje, checkoutTotal_eq_sum, List.map_map, hempty, Bool.false_eq_true,
    if_false, Function.comp]
  rfl

end CartService

namespace CartService

/-- C2: For every cart with at least one line, CheckoutCart succeeds and
returns an order identifier such that the created order's total_amount
equals the sum over all cart lines of (quantity × unit price at
checkout), one order item per cart line is created with that price and
quantity, and afterwards the cart has zero lines. Every line's product
is in the catalog (so "unit price at checkout" is defined for each line;
`AddOrUpdateItem` only ever inserts lines for existing products). -/
theorem checkoutCart_populated (s : DBState) (c : Int) (now : Nat) (cart : ShoppingCart)
    (hcart : findCart s c = some cart)
    (hne : cartLines s c ≠ [])
    (hall : ∀ ci ∈ cartLines s c, (findProduct s ci.productId).isSome = true) :
    ∃ s2, checkoutCart s c now = .ok (s.nextOrderId, s2) ∧
      s2.orders = s.orders ++
        [{ id := s.nextOrderId,
           customerId := cart.customerId,
           status := "pending",
           totalAmount := ((cartLines s c).map
             (fun ci => (ci.quantity : Rat) * priceOf s ci.productId)).sum,
           createdAt := now }] ∧
      s2.orderItems = s.orderItems ++ (cartLines s c).map (fun ci =>
        { orderId := s.nextOrderId,
          productId := ci.productId,
          quantity := ci.quantity,
          price := priceOf s ci.productId }) ∧
      cartLines s2 c = [] := by
  have hpres : presentLines s c = cartLines s c := by
    unfold presentLines
    exact List.filter_eq_self.mpr hall
  have hne' : presentLines s c ≠ [] := by
    rw [hpres]
    exact hne
  refine ⟨_, checkoutCart_ok s c now cart hcart hne', ?_, ?_, ?_⟩
  · show s.orders ++ [_] = s.orders ++ [_]
    rw [hpres,
      show (cartLines s c).map (fun ci => priceOf s ci.productId * (ci.quantity : Rat))
          = (cartLines s c).map (fun ci => (ci.quantity : Rat) * priceOf s ci.productId)
        from List.map_congr_left fun ci _ => mul_comm _ _]
  · show s.orderItems ++ _ = s.orderItems ++ _
    rw [hpres]
  · show cartLines _ c = []
    unfold cartLines
    exact filter_not_filter_eq_nil _ _

/-- Witness for C2: cart 1 (customer 42) with one line of 5 units of
product 7 (price 5) checks out into order 1 with total 25 and an empty
cart. -/
theorem checkoutCart_populated_witness :
    ∃ s2, checkoutCart ⟨[⟨1, 42, 0, 0⟩], [⟨1, 7, 5, 0, 0⟩], [⟨7, "P7", 5⟩], [], [], 1⟩ 1 9
        = .ok ((⟨[⟨1, 42, 0, 0⟩], [⟨1, 7, 5, 0, 0⟩], [⟨7, "P7", 5⟩], [], [], 1⟩ : DBState).nextOrderId, s2) ∧
      s2.orders = [] ++
        [{ id := (⟨[⟨1, 42, 0, 0⟩], [⟨1, 7, 5, 0, 0⟩], [⟨7, "P7", 5⟩], [], [], 1⟩ : DBState).nextOrderId,
           customerId := (⟨1, 42, 0, 0⟩ : ShoppingCart).customerId,
           status := "pending",
           totalAmount := ((cartLines ⟨[⟨1, 42, 0, 0⟩], [⟨1, 7, 5, 0, 0⟩], [⟨7, "P7", 5⟩], [], [], 1⟩ 1).map
             (fun ci => (ci.quantity : Rat) * priceOf ⟨[⟨1, 42, 0, 0⟩], [⟨1, 7, 5, 0, 0⟩], [⟨7, "P7", 5⟩], [], [], 1⟩ ci.productId)).sum,
           createdAt := 9 }] ∧
      s2.orderItems = [] ++ (cartLines ⟨[⟨1, 42, 0, 0⟩], [⟨1, 7, 5, 0, 0⟩], [⟨7, "P7", 5⟩], [], [], 1⟩ 1).map (fun ci =>
        { orderId := (⟨[⟨1, 42, 0, 0⟩], [⟨1, 7, 5, 0, 0⟩], [⟨7, "P7", 5⟩], [], [], 1⟩ : DBState).nextOrderId,
          productId := ci.productId,
          quantity := ci.quantity,
          price := priceOf ⟨[⟨1, 42, 0, 0⟩], [⟨1, 7, 5, 0, 0⟩], [⟨7, "P7", 5⟩], [], [], 1⟩ ci.productId }) ∧
      cartLines s2 1 = [] :=
  checkoutCart_populated ⟨[⟨1, 42, 0, 0⟩], [⟨1, 7, 5, 0, 0⟩], [⟨7, "P7", 5⟩], [], [], 1⟩
    1 9 ⟨1, 42, 0, 0⟩ (by decide) (by decide) (by decide)

/-- C3: For every existing cart with zero lines, CheckoutCart returns the
EmptyCart error and leaves all state unchanged (no order row, no order
items, cart and its lines untouched); more generally, any failure inside
checkout rolls back the entire transition so no partial order or partial
cart state is ever observable. -/
theorem checkoutCart_empty_rollback (s : DBState) (c : Int) (now : Nat) :
    (∀ cart, findCart s c = some cart → cartLines s c = [] →
      checkoutCartRun s c now = (.error .emptyCart, s)) ∧
    (∀ e, (checkoutCartRun s c now).1 = .error e → (checkoutCartRun s c now).2 = s) := by
  constructor
  · intro cart hcart hlines
    have hj : joinedLines s c = [] := by
      unfold joinedLines
      rw [hlines]
      rfl
    unfold checkoutCartRun checkoutCart
    rw [hcart, hj]
    rfl
  · intro e h
    unfold checkoutCartRun at h ⊢
    rcases hco : checkoutCart s c now with e' | ⟨oid, s2⟩
    · rfl
    · rw [hco] at h
      simp at h

/-- Witness for C3: checking out existing cart 1 with no lines fails
with EmptyCart and returns the database unchanged. -/
theorem checkoutCart_empty_rollback_witness :
    checkoutCartRun ⟨[⟨1, 42, 0, 0⟩], [], [⟨7, "P7", 5⟩], [], [], 1⟩ 1 5
      = (.error .emptyCart, ⟨[⟨1, 42, 0, 0⟩], [], [⟨7, "P7", 5⟩], [], [], 1⟩) :=
  (checkoutCart_empty_rollback ⟨[⟨1, 42, 0, 0⟩], [], [⟨7, "P7", 5⟩], [], [], 1⟩ 1 5).1
    ⟨1, 42, 0, 0⟩ (by decide) (by decide)

/-- C9: During CheckoutCart, cart lines are joined to the products table
with an INNER join, so every cart line whose product identifier is
absent from the catalog is silently excluded from the created order and
from its total (the order's items and total range over `presentLines`,
the lines whose product is in the catalog); in particular, a cart all of
whose lines reference absent products checks out as EmptyCart even
though the cart has lines, and those lines remain in the cart (the
transaction rolls back, returning the database unchanged). -/
theorem checkoutCart_absent_products (s : DBState) (c : Int) (now : Nat)
    (cart : ShoppingCart) (hcart : findCart s c = some cart) :
    (presentLines s c ≠ [] →
      ∃ s2, checkoutCart s c now = .ok (s.nextOrderId, s2) ∧
        s2.orderItems = s.orderItems ++ (presentLines s c).map (fun ci =>
          { orderId := s.nextOrderId,
            productId := ci.productId,
            quantity := ci.quantity,
            price := priceOf s ci.productId }) ∧
        s2.orders = s.orders ++
          [{ id := s.nextOrderId,
             customerId := cart.customerId,
             status := "pending",
             totalAmount := ((presentLines s c).map
               (fun ci => priceOf s ci.productId * (ci.quantity : Rat))).sum,
             createdAt := now }]) ∧
    (cartLines s c ≠ [] → presentLines s c = [] →
      checkoutCartRun s c now = (.error .emptyCart, s)) := by
  constructor
  · intro hne
    exact ⟨_, checkoutCart_ok s c now cart hcart hne, rfl, rfl⟩
  · intro _ hpres
    have hj : joinedLines s c = [] := by
      rw [joinedLines_eq_presentLines, hpres]
      rfl
    unfold checkoutCartRun checkoutCart
    rw [hcart, hj]
    rfl

/-- Witness for C9: cart 1 has one line of product 99, which is absent
from the catalog; checkout fails with EmptyCart and the line remains. -/
theorem checkoutCart_absent_products_witness :
    checkoutCartRun ⟨[⟨1, 42, 0, 0⟩], [⟨1, 99, 4, 0, 0⟩], [⟨7, "P7", 5⟩], [], [], 1⟩ 1 5
      = (.error .emptyCart, ⟨[⟨1, 42, 0, 0⟩], [⟨1, 99, 4, 0, 0⟩], [⟨7, "P7", 5⟩], [], [], 1⟩) :=
  (checkoutCart_absent_products ⟨[⟨1, 42, 0, 0⟩], [⟨1, 99, 4, 0, 0⟩], [⟨7, "P7", 5⟩], [], [], 1⟩
    1 5 ⟨1, 42, 0, 0⟩ (by decide)).2 (by decide) (by decide)

end CartService

namespace CartService

/-- A fresh `AddOrUpdateItem` (no row yet for the key) commits by
appending one new `cart_items` row and touching the cart. -/
theorem addRun_fresh (s : DBState) (c p q : Int) (t : Nat)
    (hc : cartExists s c = true) (hp : productExists s p = true)
    (hfresh : linesFor s.cartItems c p = []) :
    addRun s c p q t = { s with
      cartItems := s.cartItems ++ [⟨c, p, q, t, t⟩],
      shoppingCarts := touchCart s.shoppingCarts c t } := by
  apply addRun_eq_of_ok
  simp only [addOrUpdateItem, hc, hp, not_true, ite_false, Bool.not_eq_true]
  rw [upsertCartItem_insert hfresh]

/-- C4: In the relational backend, the unit price recorded on an order
line at checkout is the catalog price current at checkout time, not the
price at the time AddOrUpdateItem inserted the line: for every cart line
whose product's catalog price changes between add and checkout, the
order line and total reflect the changed price. Here: the cart is empty,
product `p` has catalog price `pr1` when the line is added, the catalog
price is then updated to `pr2`, and checkout records price `pr2` and
total `pr2 * q` — never the add-time price `pr1`. -/
theorem checkoutCart_live_pricing (s : DBState) (c p q : Int) (t1 t2 : Nat)
    (cart : ShoppingCart) (productName : String) (pr1 pr2 : Rat)
    (hcart : findCart s c = some cart)
    (hprod : findProduct s p = some { id := p, name := productName, price := pr1 })
    (hempty : cartLines s c = [])
    (_hq : 0 < q) :
    ∃ s3, checkoutCart (setProductPrice (addRun s c p q t1) p pr2) c t2
        = .ok (s.nextOrderId, s3) ∧
      s3.orderItems = s.orderItems ++
        [{ orderId := s.nextOrderId, productId := p, quantity := q, price := pr2 }] ∧
      s3.orders = s.orders ++
        [{ id := s.nextOrderId,
           customerId := cart.customerId,
           status := "pending",
           totalAmount := pr2 * (q : Rat),
           createdAt := t2 }] ∧
      (pr1 ≠ pr2 → s3.orderItems ≠ s.orderItems ++
        [{ orderId := s.nextOrderId, productId := p, quantity := q, price := pr1 }]) := by
  have hcart' : s.shoppingCarts.find? (fun x => x.id == c) = some cart := hcart
  have hprod' : s.products.find? (fun x => x.id == p)
      = some { id := p, name := productName, price := pr1 } := hprod
  have hempty' : s.cartItems.filter (fun ci => ci.shoppingCartId == c) = [] := hempty
  have hidc : (cart.id == c) = true := by
    have h := List.find?_some hcart'
    simpa using h
  have hc : cartExists s c = true := by
    unfold cartExists
    exact List.any_eq_true.mpr ⟨cart, List.mem_of_find?_eq_some hcart', hidc⟩
  have hp : productExists s p = true := by
    unfold productExists
    exact List.any_eq_true.mpr ⟨_, List.mem_of_find?_eq_some hprod', by simp⟩
  have hfresh : linesFor s.cartItems c p = [] := by
    unfold linesFor
    rw [List.filter_eq_nil_iff]
    intro a ha hmatch
    have h1 := (Bool.and_eq_true _ _).mp hmatch
    exact absurd h1.1 (by simpa using List.filter_eq_nil_iff.mp hempty' a ha)
  rw [addRun_fresh s c p q t1 hc hp hfresh]
  set s2 := setProductPrice { s with
      cartItems := s.cartItems ++ [⟨c, p, q, t1, t1⟩],
      shoppingCarts := touchCart s.shoppingCarts c t1 } p pr2 with hs2
  have hs2cart : findCart s2 c = some { cart with updatedAt := t1 } := by
    show (touchCart s.shoppingCarts c t1).find? (fun x => x.id == c) = _
    rw [touchCart_find?, hcart']
    simp only [Option.map_some', hidc, ite_true]
  have hs2prod : findProduct s2 p = some { id := p, name := productName, price := pr2 } := by
    show (s.products.map (fun x => if x.id == p then { x with price := pr2 } else x)).find?
      (fun x => x.id == p) = _
    rw [find?_map_of_pred_invariant
      (fun x => by by_cases h : (x.id == p) = true <;> simp [h]), hprod']
    simp
  have hs2lines : cartLines s2 c = [⟨c, p, q, t1, t1⟩] := by
    show (s.cartItems ++ [(⟨c, p, q, t1, t1⟩ : CartItem)]).filter
      (fun ci => ci.shoppingCartId == c) = [(⟨c, p, q, t1, t1⟩ : CartItem)]
    rw [List.filter_append, hempty']
    simp
  have hs2pres : presentLines s2 c = [⟨c, p, q, t1, t1⟩] := by
    unfold presentLines
    rw [hs2lines]
    simp only [List.filter_cons]
    rw [show findProduct s2 (⟨c, p, q, t1, t1⟩ : CartItem).productId
        = some { id := p, name := productName, price := pr2 } from hs2prod]
    rfl
  have hpr : priceOf s2 p = pr2 := by
    unfold priceOf
    rw [hs2prod]
  have hok := checkoutCart_ok s2 c t2 { cart with updatedAt := t1 } hs2cart
    (by rw [hs2pres]; exact List.cons_ne_nil _ _)
  have hmain : ∃ s3, checkoutCart s2 c t2 = .ok (s.nextOrderId, s3) ∧
      s3.orderItems = s.orderItems ++
        [{ orderId := s.nextOrderId, productId := p, quantity := q, price := pr2 }] ∧
      s3.orders = s.orders ++
        [{ id := s.nextOrderId,
           customerId := cart.customerId,
           status := "pending",
           totalAmount := pr2 * (q : Rat),
           createdAt := t2 }] := by
    refine ⟨_, hok, ?_, ?_⟩
    · show s2.orderItems ++ (presentLines s2 c).map _ = _
      rw [hs2pres]
      simp only [List.map_cons, List.map_nil]
      rw [show priceOf s2 (⟨c, p, q, t1, t1⟩ : CartItem).productId = pr2 from hpr]
      rfl
    · show s2.orders ++ [_] = _
      rw [hs2pres]
      simp only [List.map_cons, List.map_nil]
      rw [show priceOf s2 (⟨c, p, q, t1, t1⟩ : CartItem).productId = pr2 from hpr]
      show s.orders ++ _ = s.orders ++ _
      simp
      rfl
  obtain ⟨s3, h1, h2, h3⟩ := hmain
  refine ⟨s3, h1, h2, h3, fun hne heq => ?_⟩
  rw [h2] at heq
  have hrow := List.append_cancel_left heq
  simp only [List.cons.injEq, OrderItemRow.mk.injEq, and_true] at hrow
  exact hne hrow.2.2.2.symm

end CartService

namespace CartService

/-- Witness for C4: product 7 is added at catalog price 5, the catalog
price is changed to 11, and checkout records price 11 and total 22. -/
theorem checkoutCart_live_pricing_witness :
    ∃ s3, checkoutCart (setProductPrice
        (addRun ⟨[⟨1, 42, 0, 0⟩], [], [⟨7, "P7", 5⟩], [], [], 1⟩ 1 7 2 1) 7 11) 1 9
        = .ok (1, s3) ∧
      s3.orderItems = [] ++ [{ orderId := 1, productId := 7, quantity := 2, price := 11 }] ∧
      s3.orders = [] ++
        [{ id := 1,
           customerId := 42,
           status := "pending",
           totalAmount := 11 * ((2 : Int) : Rat),
           createdAt := 9 }] ∧
      ((5 : Rat) ≠ 11 → s3.orderItems ≠ [] ++
        [{ orderId := 1, productId := 7, quantity := 2, price := 5 }]) :=
  checkoutCart_live_pricing ⟨[⟨1, 42, 0, 0⟩], [], [⟨7, "P7", 5⟩], [], [], 1⟩
    1 7 2 1 9 ⟨1, 42, 0, 0⟩ "P7" 5 11 (by decide) (by decide) (by decide) (by decide)

/-- C8: For every cart identifier, GetCartWithItems returns either
NotFound, or a stable internally consistent snapshot: the full set of
the cart's lines as of one logical point in time, or the cart alone
with no lines — never a partial line list caused by a concurrent write
interleaving with the read. The cart lookup and the item query run as
two separate statements, so they may observe different committed
database states `s1` and `s2`; the item list nevertheless comes from
the single item-query snapshot `s2`, whose full line set it equals. -/
theorem getCartWithItems_snapshot (s1 s2 : DBState) (c : Int) :
    (findCart s1 c = none ∧ getCartWithItems s1 s2 c = .error .cartNotFound) ∨
    (∃ cw, getCartWithItems s1 s2 c = .ok cw ∧
      cw.items.map (fun d => (d.productId, d.quantity)) =
        (cartLines s2 c).map (fun ci => (ci.productId, ci.quantity))) := by
  rcases hfc : findCart s1 c with _ | cart
  · left
    refine ⟨rfl, ?_⟩
    unfold getCartWithItems getCart
    rw [hfc]
  · right
    refine ⟨{ cart := cart, items := itemDetails s2 c }, ?_, ?_⟩
    · unfold getCartWithItems getCart
      rw [hfc]
    · show (itemDetails s2 c).map _ = _
      unfold itemDetails
      rw [List.map_map]
      apply List.map_congr_left
      intro ci _
      rcases h : findProduct s2 ci.productId with _ | pr <;> simp [h, Function.comp]

end CartService

namespace Orders

theorem activeCount_append (capacity : Nat) (l1 l2 : List Task) :
    activeCount ⟨capacity, l1 ++ l2⟩ = activeCount ⟨capacity, l1⟩ + activeCount ⟨capacity, l2⟩ := by
  unfold activeCount
  simp [List.filter_append]

theorem activeCount_middle (capacity : Nat) (pre post : List Task) (t : Task) :
    activeCount ⟨capacity, pre ++ t :: post⟩
      = activeCount ⟨capacity, pre⟩ + activeCount ⟨capacity, [t]⟩
        + activeCount ⟨capacity, post⟩ := by
  rw [show pre ++ t :: post = pre ++ ([t] ++ post) from by simp,
    activeCount_append, activeCount_append]
  omega

theorem gateStep_preserves (a b : GateSystem) (h : GateStep a b) (n : Nat)
    (hc : activeCount a ≤ n) (hcap : a.capacity = n) :
    activeCount b ≤ n ∧ b.capacity = n := by
  cases h with
  | spawn _ path =>
    refine ⟨?_, hcap⟩
    show activeCount ⟨a.capacity, a.tasks ++ [⟨path, .awaitingCapacity⟩]⟩ ≤ n
    rw [activeCount_append]
    have hz : activeCount ⟨a.capacity, [(⟨path, .awaitingCapacity⟩ : Task)]⟩ = 0 := by
      simp [activeCount]
    have hs : activeCount ⟨a.capacity, a.tasks⟩ = activeCount a := rfl
    omega
  | acquire capacity pre post path hlt =>
    have hcapn : capacity = n := hcap
    refine ⟨?_, hcapn⟩
    rw [activeCount_middle] at hlt ⊢
    have h1 : activeCount ⟨capacity, [(⟨path, .awaitingCapacity⟩ : Task)]⟩ = 0 := by
      simp [activeCount]
    have h2 : activeCount ⟨capacity, [(⟨path, .processing⟩ : Task)]⟩ = 1 := by
      simp [activeCount]
    omega
  | release capacity pre post path =>
    have hcapn : capacity = n := hcap
    refine ⟨?_, hcapn⟩
    rw [activeCount_middle] at hc ⊢
    have h1 : activeCount ⟨capacity, [(⟨path, .processing⟩ : Task)]⟩ = 1 := by
      simp [activeCount]
    have h2 : activeCount ⟨capacity, [(⟨path, .completed⟩ : Task)]⟩ = 0 := by
      simp [activeCount]
    omega

/-- C5: Both the synchronous submission path and the queue-consumer path
acquire the same Capacity Gate instance (the single `paymentSemaphore`
shared by every task of the modelled system, whichever `EntryPath` it
entered by), a counting resource of fixed configurable size N; when the
gate is saturated an acquiring task blocks (there is no rejecting or
erroring transition — `GateStep.acquire` simply cannot fire), so at most
N payment simulations run concurrently system-wide regardless of entry
path: in every reachable state the number of tasks inside the payment
simulation is at most N, and the gate's size is still N. -/
theorem paymentGate_bounded (n : Nat) (sys : GateSystem)
    (h : GateReachable n sys) :
    activeCount sys ≤ n ∧ sys.capacity = n := by
  unfold GateReachable at h
  induction h with
  | refl =>
    refine ⟨?_, rfl⟩
    show activeCount ⟨n, []⟩ ≤ n
    simp [activeCount]
  | tail _ hstep ih =>
    exact gateStep_preserves _ _ hstep n ih.1 ih.2

/-- Witness for C5: from an idle gate of size 2, spawn a sync-path task
and a queue-path task and let the sync task acquire; the reachable state
has at most 2 active payments and gate size still 2. -/
theorem paymentGate_bounded_witness :
    activeCount ⟨2, [⟨EntryPath.sync, TaskPhase.processing⟩, ⟨EntryPath.queue, TaskPhase.awaitingCapacity⟩]⟩ ≤ 2 ∧
    (GateSystem.mk 2 [⟨EntryPath.sync, TaskPhase.processing⟩, ⟨EntryPath.queue, TaskPhase.awaitingCapacity⟩]).capacity = 2 :=
  paymentGate_bounded 2 _
    (Relation.ReflTransGen.tail
      (Relation.ReflTransGen.tail
        (Relation.ReflTransGen.single (GateStep.spawn ⟨2, []⟩ EntryPath.sync))
        (GateStep.spawn ⟨2, [⟨EntryPath.sync, TaskPhase.awaitingCapacity⟩]⟩ EntryPath.queue))
      (GateStep.acquire 2 [] [⟨EntryPath.queue, TaskPhase.awaitingCapacity⟩] EntryPath.sync
        (by decide)))

end Orders

namespace Orders

/-- C6: The synchronous order submission (CreateOrderSync) fails with a
Validation outcome for every payload whose items list is empty, and for
every valid payload it produces no caller-visible response until the
payment simulation (gate acquisition plus the fixed processing delay)
has completed — every event before the response is a non-response event,
and the response is the final event of the trace; the success response
then carries status "completed". -/
theorem createOrderSync_spec (o : Order) :
    (o.items = [] →
      createOrderSync o = [.respondBadRequest "order must contain at least one item"]) ∧
    (o.items ≠ [] →
      createOrderSync o =
        [.gateAcquired, .paymentCompleted, .resultSent true, .gateReleased,
         .respondOk { orderId := o.orderId, status := "completed",
                      message := "Order processed successfully" }] ∧
      ∀ e ∈ (createOrderSync o).take 4, e.isResponse = false) := by
  constructor
  · intro h
    simp [createOrderSync, h]
  · intro h
    have hlen : ¬ o.items.length = 0 := by
      intro hh
      exact h (List.length_eq_zero.mp hh)
    have heq : createOrderSync o =
        [.gateAcquired, .paymentCompleted, .resultSent true, .gateReleased,
         .respondOk { orderId := o.orderId, status := "completed",
                      message := "Order processed successfully" }] := by
      simp [createOrderSync, hlen, simulatePayment]
    refine ⟨heq, ?_⟩
    intro e he
    rw [heq] at he
    simp only [List.take, List.mem_cons, List.not_mem_nil, or_false] at he
    rcases he with rfl | rfl | rfl | rfl <;> rfl

/-- Witness for C6 at two concrete payloads: an empty-items order is
rejected with the validation message; a one-item order's trace runs the
payment events first and ends with the "completed" response. -/
theorem createOrderSync_spec_witness :
    createOrderSync ⟨"o-empty", 7, "new", [], 0⟩
      = [.respondBadRequest "order must contain at least one item"] ∧
    (createOrderSync ⟨"o-1", 7, "new", [⟨"p1", 1, 2⟩], 0⟩ =
      [.gateAcquired, .paymentCompleted, .resultSent true, .gateReleased,
       .respondOk { orderId := "o-1", status := "completed",
                    message := "Order processed successfully" }] ∧
      ∀ e ∈ (createOrderSync ⟨"o-1", 7, "new", [⟨"p1", 1, 2⟩], 0⟩).take 4,
        e.isResponse = false) :=
  ⟨(createOrderSync_spec ⟨"o-empty", 7, "new", [], 0⟩).1 rfl,
   (createOrderSync_spec ⟨"o-1", 7, "new", [⟨"p1", 1, 2⟩], 0⟩).2
     (List.cons_ne_nil _ _)⟩

/-- C7: For every queue message received by the consumer: if its body
fails to deserialize into an order (either the SNS envelope or the inner
order payload fails to parse), the message is acknowledged (deleted)
immediately and dropped without any processing or retry; if it
deserializes successfully, the message is acknowledged only after its
processing task completes — the delete action strictly follows the
processing action in the trace. -/
theorem processMessage_spec (pe : String → Option String)
    (po : String → Option Order) (body : String) :
    (pe body = none → processMessage pe po body = [.deleteMessage]) ∧
    (∀ inner, pe body = some inner → po inner = none →
      processMessage pe po body = [.deleteMessage]) ∧
    (∀ inner o, pe body = some inner → po inner = some o →
      processMessage pe po body = [.processOrder o, .deleteMessage]) := by
  refine ⟨?_, ?_, ?_⟩
  · intro h
    unfold processMessage
    rw [h]
  · intro inner h1 h2
    simp [processMessage, h1, h2]
  · intro inner o h1 h2
    simp [processMessage, h1, h2]

/-- Witness for C7: a body whose envelope fails to parse is just
deleted; one whose order fails to parse is just deleted; a well-formed
one is processed and only then deleted. -/
theorem processMessage_spec_witness :
    processMessage (fun _ => none) (fun _ => none) "junk" = [.deleteMessage] ∧
    processMessage (fun _ => some "inner") (fun _ => none) "b" = [.deleteMessage] ∧
    processMessage (fun _ => some "inner")
        (fun _ => some ⟨"o-1", 7, "new", [⟨"p1", 1, 2⟩], 0⟩) "b"
      = [.processOrder ⟨"o-1", 7, "new", [⟨"p1", 1, 2⟩], 0⟩, .deleteMessage] :=
  ⟨(processMessage_spec (fun _ => none) (fun _ => none) "junk").1 rfl,
   (processMessage_spec (fun _ => some "inner") (fun _ => none) "b").2.1 "inner" rfl rfl,
   (processMessage_spec (fun _ => some "inner")
     (fun _ => some ⟨"o-1", 7, "new", [⟨"p1", 1, 2⟩], 0⟩) "b").2.2 "inner" _ rfl rfl⟩

/-- C10: The Capacity Gate's size is determined once at startup from the
WORKER_COUNT environment variable: if WORKER_COUNT is unset (Getenv
returns ""), not parseable as an integer (strconv.Atoi errors), or not
strictly positive, the gate size is exactly 1; otherwise it equals the
parsed value. -/
theorem initWorkerCount_spec (env : String) :
    (env = "" → initWorkerCount env = 1) ∧
    (goAtoi env = none → initWorkerCount env = 1) ∧
    (∀ cnt : Int, goAtoi env = some cnt → cnt ≤ 0 → initWorkerCount env = 1) ∧
    (∀ cnt : Int, goAtoi env = some cnt → 0 < cnt → initWorkerCount env = cnt) := by
  refine ⟨?_, ?_, ?_, ?_⟩
  · intro h
    simp [initWorkerCount, h]
  · intro h
    by_cases he : env = ""
    · simp [initWorkerCount, he]
    · simp [initWorkerCount, he, h]
  · intro cnt h hle
    by_cases he : env = ""
    · simp [initWorkerCount, he]
    · have : ¬ cnt > 0 := by omega
      simp [initWorkerCount, he, h, this]
  · intro cnt h hpos
    by_cases he : env = ""
    · rw [he] at h
      simp [goAtoi] at h
    · simp [initWorkerCount, he, h, hpos]

/-- Witness for C10: unset gives 1, garbage gives 1, zero gives 1, "4"
gives 4. -/
theorem initWorkerCount_spec_witness :
    initWorkerCount "" = 1 ∧ initWorkerCount "abc" = 1 ∧
    initWorkerCount "0" = 1 ∧ initWorkerCount "4" = 4 :=
  ⟨(initWorkerCount_spec "").1 rfl,
   (initWorkerCount_spec "abc").2.1 (by decide),
   (initWorkerCount_spec "0").2.2.1 0 (by decide) (by decide),
   (initWorkerCount_spec "4").2.2.2 4 (by decide) (by decide)⟩

end Orders
